import Mathlib

/-!
A verification development for the DocGenerator backend
(`backend/src/app.py`): a shallow embedding of the coordinate extractors
(`parse_coords_json`, `parse_coords_excel`), the chart builder
(`create_plot`), the PDF rasterizer (`pdf_to_images`) and the request
handler (`generate_doc`), together with theorems settling the specified
properties.

Modelling conventions:
* Python numbers are exact rationals (`ℚ`); the floating-point rounding of
  CPython is idealized away (all concrete inputs used below are exactly
  representable doubles, where both agree).
* Decoded JSON values (the output of `json.loads`) and spreadsheet cell
  values (openpyxl with `data_only=True`) share the carrier `JVal`;
  `JVal.jnull` stands for Python `None`.  JSON objects are modelled
  opaquely (the code never looks inside them: `float` of a dict fails and
  `isinstance(dict, list)` is false).
* Exceptions are explicit: `Except` with `PyExc` distinguishing
  `ValueError` (caught by the handler's first `except`, → HTTP 400) from
  any other exception (second `except`, → HTTP 500).  Message text coming
  from *library* internals (e.g. the text of `float`'s or `json.loads`'s
  own errors) is modelled by fixed representative strings; the literal
  messages raised by the application code itself are kept verbatim.
-/

deriving instance DecidableEq for Except

namespace DocGen

/-- Decoded dynamic values: output of `json.loads`, and also cell values of
a worksheet.  `jnull` is Python's `None`; numbers are exact rationals. -/
inductive JVal where
  | jnull : JVal
  | jbool (b : Bool) : JVal
  | jnum (q : ℚ) : JVal
  | jstr (s : String) : JVal
  | jarr (elems : List JVal) : JVal
  | jobj (size : Nat) : JVal

/-- Python `x is None` test. -/
def JVal.isNull : JVal → Bool
  | .jnull => true
  | _ => false

/-! ### Model of Python `float(value)` -/

/-- Numeric value of a list of decimal digit characters. -/
def natOfDigits (l : List Char) : Nat :=
  l.foldl (fun a c => 10 * a + (c.toNat - 48)) 0

/-- Split a character list at the first character satisfying `p`:
returns the part before it and, when found, the part after it. -/
def splitFirst (p : Char → Bool) : List Char → List Char × Option (List Char)
  | [] => ([], none)
  | c :: rest =>
    if p c then ([], some rest)
    else
      let (a, b) := splitFirst p rest
      (c :: a, b)

/-- Powers of ten in `ℚ`, by structural recursion. -/
def pow10 : Nat → ℚ
  | 0 => 1
  | n + 1 => 10 * pow10 n

/-- Mantissa of a decimal literal: digits with an optional single decimal
point, at least one digit overall (`"5"`, `"5."`, `".5"`, `"3.5"`). -/
def parseMantissa (cs : List Char) : Option ℚ :=
  let (ip, fpOpt) := splitFirst (fun c => c = '.') cs
  let fp := fpOpt.getD []
  if ip.all Char.isDigit && fp.all Char.isDigit && (!ip.isEmpty || !fp.isEmpty) then
    some ((natOfDigits ip : ℚ) + (natOfDigits fp : ℚ) / pow10 fp.length)
  else none

/-- Exponent part after `e`/`E`: optional sign then digits. -/
def parseExpPart : List Char → Option Int
  | [] => none
  | '+' :: ds => if !ds.isEmpty && ds.all Char.isDigit then some (natOfDigits ds : Int) else none
  | '-' :: ds => if !ds.isEmpty && ds.all Char.isDigit then some (-(natOfDigits ds : Int)) else none
  | ds => if ds.all Char.isDigit then some (natOfDigits ds : Int) else none

/-- Scaling by `10 ^ e` for a signed exponent. -/
def scaleByExp (q : ℚ) (e : Int) : ℚ :=
  if 0 ≤ e then q * pow10 e.toNat else q / pow10 (-e).toNat

/-- Strip leading and trailing whitespace (model of `str.strip` as applied
by `float` to its string argument). -/
def trimChars (l : List Char) : List Char :=
  ((l.dropWhile Char.isWhitespace).reverse.dropWhile Char.isWhitespace).reverse

/-- Model of Python `float(s)` for a string `s` written in plain decimal
or scientific notation, with optional sign and surrounding whitespace,
returning `none` when `float` would raise `ValueError`.  (The special
spellings `inf`/`nan` and underscore digit separators are accepted by
CPython but are outside this model; no input considered here uses them.) -/
def parseFloatLit (s : String) : Option ℚ :=
  let cs := trimChars s.data
  let signAndRest : ℚ × List Char :=
    match cs with
    | '+' :: rest => (1, rest)
    | '-' :: rest => (-1, rest)
    | _ => (1, cs)
  let (mant, expOpt) := splitFirst (fun c => c = 'e' || c = 'E') signAndRest.2
  match expOpt with
  | none => (parseMantissa mant).map (signAndRest.1 * ·)
  | some ep =>
    match parseMantissa mant, parseExpPart ep with
    | some m, some e => some (scaleByExp (signAndRest.1 * m) e)
    | _, _ => none

/-- Model of Python `float(v)` on a decoded dynamic value: numbers pass
through, booleans become 0/1, numeric strings are parsed; `None`, lists
and dicts raise (`none`). -/
def pyFloat : JVal → Option ℚ
  | .jnum q => some q
  | .jbool b => some (if b then 1 else 0)
  | .jstr s => parseFloatLit s
  | _ => none

/-! ### `parse_coords_json` -/

/-- Python exceptions as seen by `generate_doc`'s handlers: `ValueError`
(first `except`) versus anything else (second `except`). -/
inductive PyExc where
  | valueError (msg : String) : PyExc
  | otherExc (msg : String) : PyExc
deriving DecidableEq, Repr

/-- Representative text of the exception raised by `float` on a
non-coercible value (library-internal text). -/
def floatFailMsg : String := "could not convert value to float"

/-- Representative text of `json.JSONDecodeError` (library-internal). -/
def jsonDecodeFailMsg : String := "Expecting value"

/-- An element that the loop body of `parse_coords_json` treats as a
candidate pair: `isinstance(pair, list) and len(pair) == 2`. -/
def isPairShape : JVal → Bool
  | .jarr [_, _] => true
  | _ => false

/-- The coordinate a candidate pair yields, when both components are
`float`-coercible. -/
def coercePair : JVal → Option (ℚ × ℚ)
  | .jarr [a, b] =>
    match pyFloat a, pyFloat b with
    | some x, some y => some (x, y)
    | _, _ => none
  | _ => none

/-- The `for pair in data` loop of `parse_coords_json`: elements that are
not 2-element lists are skipped; a 2-element list with a non-coercible
component raises, aborting the whole loop (there is no per-element
`try` in the source). -/
def collectCoords : List JVal → Except String (List (ℚ × ℚ))
  | [] => .ok []
  | v :: rest =>
    match v with
    | .jarr [a, b] =>
      match pyFloat a, pyFloat b with
      | some x, some y =>
        match collectCoords rest with
        | .ok tail => .ok ((x, y) :: tail)
        | .error e => .error e
      | _, _ => .error floatFailMsg
    | _ => collectCoords rest

/-- The `except Exception as exc: raise ValueError(f"{pre}{exc}")` pattern
shared by both extractors: every inner failure is re-raised as a
`ValueError` with the given prefix. -/
def wrapValueError (pre : String) (r : Except String α) : Except PyExc α :=
  match r with
  | .ok a => .ok a
  | .error e => .error (.valueError (pre ++ e))

/-- `parse_coords_json` of `app.py`, applied to the result of
`json.loads(coords_json)` (`none` models a decode failure).  Every inner
failure is re-raised as `ValueError("Некорректные координаты: ...")`. -/
def parse_coords_json (decoded : Option JVal) : Except PyExc (List (ℚ × ℚ)) :=
  wrapValueError "Некорректные координаты: "
    (match decoded with
    | none => .error jsonDecodeFailMsg
    | some (.jarr data) =>
      match collectCoords data with
      | .error e => .error e
      | .ok [] => .error "Список координат пуст"
      | .ok coords => .ok (coords.take 10)
    | some _ => .error "JSON должен быть списком координат")

/-! ### `parse_coords_excel` -/

/-- An uploaded spreadsheet as `load_workbook` sees it: either the load
itself fails (unreadable / not the expected format) or it yields the rows
of the active worksheet (each row the tuple of its cell values, `jnull`
for empty cells). -/
inductive ExcelFile where
  | loadError (msg : String) : ExcelFile
  | ok (rows : List (List JVal)) : ExcelFile

/-- The `for row in ws.iter_rows(min_row=2, values_only=True)` loop of
`parse_coords_excel`.  Each step: `x, y = row[:2]` (raises when the row
tuple has fewer than two cells); if both are non-`None`, coerce both with
`float` (raising on failure) and append; after the step, break as soon as
ten coordinates are collected. -/
def excelLoop : List (List JVal) → List (ℚ × ℚ) → Except String (List (ℚ × ℚ))
  | [], acc => .ok acc
  | row :: rest, acc =>
    match row with
    | x :: y :: _ =>
      let step : Except String (List (ℚ × ℚ)) :=
        if !x.isNull && !y.isNull then
          match pyFloat x, pyFloat y with
          | some a, some b => .ok (acc ++ [(a, b)])
          | _, _ => .error floatFailMsg
        else .ok acc
      match step with
      | .error e => .error e
      | .ok acc' => if acc'.length ≥ 10 then .ok acc' else excelLoop rest acc'
    | _ => .error "not enough values to unpack"

/-- `parse_coords_excel` of `app.py`.  `ws.iter_rows(min_row=2)` skips the
header row, hence `rows.drop 1`; every inner failure (including the
"no coordinates" case, raised inside the `try`) is re-raised as
`ValueError("Ошибка Excel: ...")`. -/
def parse_coords_excel (file : ExcelFile) : Except PyExc (List (ℚ × ℚ)) :=
  wrapValueError "Ошибка Excel: "
    (match file with
    | .loadError msg => .error msg
    | .ok rows =>
      match excelLoop (rows.drop 1) [] with
      | .error e => .error e
      | .ok [] => .error "В Excel-файле нет координат"
      | .ok coords => .ok coords)

/-! ### `create_plot` -/

/-- Round-half-even, the rounding CPython's `format` applies (here on the
exact rational value; all inputs used below are exact). -/
def roundHalfEven (q : ℚ) : Int :=
  let f := ⌊q⌋
  let r := q - f
  if r < 1 / 2 then f
  else if 1 / 2 < r then f + 1
  else if f % 2 = 0 then f else f + 1

/-- Left-pad a string with zeros to 3 characters. -/
def pad3 (s : String) : String :=
  String.mk (List.replicate (3 - s.length) '0') ++ s

/-- Model of the Python format specifier `:.3f`. -/
def fmt3 (q : ℚ) : String :=
  let n := (roundHalfEven (|q| * 1000)).toNat
  (if q < 0 then "-" else "") ++ toString (n / 1000) ++ "." ++ pad3 (toString (n % 1000))

/-- Degree-1 least-squares fit, the mathematical content of
`np.polyfit(xs, ys, 1)` on non-degenerate data (numpy computes the same
least-squares solution via SVD in floating point).  The degenerate case
(all x equal) is left unspecified by the source and modelled as `(0, 0)`;
no claim below touches it. -/
def polyfit1 (pts : List (ℚ × ℚ)) : ℚ × ℚ :=
  let n : ℚ := pts.length
  let sx := (pts.map Prod.fst).sum
  let sy := (pts.map Prod.snd).sum
  let sxx := (pts.map fun p => p.1 * p.1).sum
  let sxy := (pts.map fun p => p.1 * p.2).sum
  let d := n * sxx - sx * sx
  if d = 0 then (0, 0)
  else
    let slope := (n * sxy - sx * sy) / d
    (slope, (sy - slope * sx) / n)

/-- Insert a point into a list sorted by first component, after every
element with a smaller-or-equal key (the inserted point is the earlier
one in the original list, so this keeps the sort stable). -/
def insertByX (p : ℚ × ℚ) : List (ℚ × ℚ) → List (ℚ × ℚ)
  | [] => [p]
  | q :: rest => if p.1 ≤ q.1 then p :: q :: rest else q :: insertByX p rest

/-- `sorted(zip(xs, ys), key=lambda p: p[0])`: stable sort by x
(Python's `sorted` is a stable sort; any stable sort by the same key is
observationally the same function, modelled here by insertion sort). -/
def sortByX : List (ℚ × ℚ) → List (ℚ × ℚ)
  | [] => []
  | p :: rest => insertByX p (sortByX rest)

/-- The figure `create_plot` draws, as abstract drawing commands: the
scatter layer (original order), the connecting line (x-sorted), and, when
at least two points are given, the trend layer: fitted `(slope,
intercept)` and the text placed at axes coordinates (0.02, 0.98). -/
structure Plot where
  scatter : List (ℚ × ℚ)
  line : List (ℚ × ℚ)
  trend : Option ((ℚ × ℚ) × String)
  xlabel : String
  ylabel : String
  grid : Bool
deriving DecidableEq

/-- `create_plot` of `app.py`.  `xs, ys = zip(*coords)` raises
`ValueError` on an empty list (`none`); otherwise a figure is produced. -/
def create_plot (coords : List (ℚ × ℚ)) : Option Plot :=
  match coords with
  | [] => none
  | _ :: _ =>
    let sorted := sortByX coords
    let trend :=
      if coords.length ≥ 2 then
        let p := polyfit1 coords
        some (p, "Тренд: y=" ++ fmt3 p.1 ++ "x+" ++ fmt3 p.2)
      else none
    some { scatter := coords, line := sorted, trend := trend,
           xlabel := "X", ylabel := "Y", grid := true }

/-! ### `pdf_to_images` -/

/-- Outcome of `page.get_pixmap(dpi=150)` + PNG encoding for one page:
an opaque image (identified by a number), a `MemoryError`, or some other
library exception. -/
inductive PageOutcome where
  | ok (img : Nat) : PageOutcome
  | memError : PageOutcome
  | renderError (msg : String) : PageOutcome

def PageOutcome.isOkPage : PageOutcome → Bool
  | .ok _ => true
  | _ => false

def PageOutcome.image : PageOutcome → Option Nat
  | .ok img => some img
  | _ => none

/-- Outcome of `fitz.open(stream=..., filetype="pdf")`: a document (its
pages, each carrying what rendering it will do), a `RuntimeError` with a
message, or a `MemoryError`. -/
inductive OpenResult where
  | ok (pages : List PageOutcome) : OpenResult
  | runtimeError (msg : String) : OpenResult
  | memoryError : OpenResult

/-- The classification the `except RuntimeError` block performs on the
lowered message, in source order: password/encryption, then broken
document, then xref/no-objects, else pass the diagnostic through. -/
inductive OpenClass where
  | encrypted : OpenClass
  | broken : OpenClass
  | xref : OpenClass
  | other (msg : String) : OpenClass
deriving DecidableEq

/-- Substring test, Python's `needle in hay`. -/
def strContainsSub (hay needle : List Char) : Bool :=
  match hay with
  | [] => needle.isEmpty
  | _ :: rest => needle.isPrefixOf hay || strContainsSub rest needle

/-- `str.lower` (ASCII; the indicators matched are all ASCII). -/
def pyLower (s : String) : List Char :=
  s.data.map Char.toLower

/-- `msg = str(e).lower()` followed by the `if`-chain of
`pdf_to_images`'s `except RuntimeError` handler. -/
def classifyOpen (msg : String) : OpenClass :=
  let m := pyLower msg
  if strContainsSub m "encrypted".data || strContainsSub m "password".data then .encrypted
  else if strContainsSub m "cannot open broken document".data then .broken
  else if strContainsSub m "xref".data || strContainsSub m "no objects".data then .xref
  else .other msg

/-- The `ValueError` message each open-failure class is re-raised with. -/
def openClassMsg : OpenClass → String
  | .encrypted => "PDF защищён паролем"
  | .broken => "PDF повреждён или имеет неверный формат"
  | .xref => "PDF имеет повреждённую структуру"
  | .other msg => "Невозможно открыть PDF: " ++ msg

/-- The per-page loop of `pdf_to_images` (`enumerate(doc)`, messages use
the 1-based index): a `MemoryError` on a page raises the page-indexed
memory message, any other exception the page-indexed render message;
either aborts the loop. -/
def renderPages (n : Nat) : List PageOutcome → Except String (List Nat)
  | [] => .ok []
  | .ok img :: rest =>
    match renderPages (n + 1) rest with
    | .ok tail => .ok (img :: tail)
    | .error e => .error e
  | .memError :: _ =>
    .error ("Недостаточно памяти для рендеринга страницы " ++ toString n ++
      ". PDF слишком большой или содержит очень высокое разрешение.")
  | .renderError msg :: _ =>
    .error ("Ошибка рендеринга страницы " ++ toString n ++ ": " ++ msg)

/-- Failures inside `pdf_to_images`'s outer `try`: every `ValueError`
raised in it, or a `MemoryError` escaping the per-page handlers. -/
inductive PdfInner where
  | vErr (msg : String) : PdfInner
  | memErr : PdfInner

/-- Body of `pdf_to_images`'s outer `try`: empty-bytes check, the open
attempt with its `RuntimeError` classification, then the page loop. -/
def pdfBody (pdfBytes : List Nat) (openRes : OpenResult) : Except PdfInner (List Nat) :=
  if pdfBytes.isEmpty then .error (.vErr "PDF-файл пустой")
  else
    match openRes with
    | .runtimeError msg => .error (.vErr (openClassMsg (classifyOpen msg)))
    | .memoryError => .error .memErr
    | .ok pages =>
      match renderPages 1 pages with
      | .ok imgs => .ok imgs
      | .error e => .error (.vErr e)

/-- `pdf_to_images` of `app.py`.  The outer `except MemoryError` produces
the generic memory message; the outer `except Exception` wraps every other
inner failure as `ValueError("Ошибка PDF: ...")`. -/
def pdf_to_images (pdfBytes : List Nat) (openRes : OpenResult) : Except PyExc (List Nat) :=
  match pdfBody pdfBytes openRes with
  | .ok imgs => .ok imgs
  | .error .memErr =>
    .error (.valueError
      "Недостаточно памяти для обработки PDF. Попробуйте загрузить файл меньшего размера.")
  | .error (.vErr msg) => .error (.valueError ("Ошибка PDF: " ++ msg))

/-! ### `generate_doc` -/

/-- The `coords_json` form field: its raw string (Python truthiness of a
string is non-emptiness) together with the result of `json.loads` on it
(`none` models a decode failure). -/
structure JsonField where
  raw : String
  decoded : Option JVal

/-- The `pdf_file` upload: its byte content and the behaviour of
`fitz.open` on it. -/
structure PdfFile where
  bytes : List Nat
  openResult : OpenResult

/-- One `/generate` request.  An `UploadFile` object is always truthy, so
presence of `excel_file`/`pdf_file` is plain `Option`; the string field
`coords_json` is additionally subject to the emptiness test. -/
structure Request where
  description : Option String
  coords_json : Option JsonField
  excel_file : Option ExcelFile
  pdf_file : Option PdfFile

/-- `if coords_json:` — present and non-empty. -/
def jsonFieldTruthy : Option JsonField → Bool
  | none => false
  | some f => !(f.raw = "")

/-- An image embedded in the output document: the chart, or one rendered
PDF page. -/
inductive Image where
  | chart (p : Plot) : Image
  | page (data : Nat) : Image
deriving DecidableEq

/-- One block of the assembled docx, in document order. -/
inductive DocxItem where
  | heading (text : String) (level : Nat) : DocxItem
  | par (text : String) : DocxItem
  | picture (img : Image) (widthInches : Nat) : DocxItem
deriving DecidableEq

/-- The `for i, img in enumerate(pdf_images, start=1)` loop of the
assembly: a "Страница i:" paragraph then the page picture. -/
def pageItems (i : Nat) : List Nat → List DocxItem
  | [] => []
  | img :: rest =>
    .par ("Страница " ++ toString i ++ ":") :: .picture (.page img) 6 :: pageItems (i + 1) rest

/-- The successful response: the serialized docx (as its block list) with
the fixed media type and attachment filename. -/
structure Response where
  items : List DocxItem
  mediaType : String
  filename : String
deriving DecidableEq

/-- The docx `generate_doc` assembles: description section, chart section,
then one paragraph+picture pair per PDF page.  `description or
"Описание работы"`: `None` and the empty string both fall back. -/
def mkResponse (desc : Option String) (plot : Plot) (imgs : List Nat) : Response :=
  { items :=
      [.heading "Описание" 1,
       .par (match desc with | none => "Описание работы" | some "" => "Описание работы" | some s => s),
       .heading "График по координатам" 1,
       .par "График.",
       .picture (.chart plot) 6] ++ pageItems 1 imgs,
    mediaType := "application/vnd.openxmlformats-officedocument.wordprocessingml.document",
    filename := "generated_document.docx" }

/-- Coordinate-source selection at the top of `generate_doc`'s `try`:
`if excel_file:` wins when a spreadsheet is present (an `UploadFile` is
always truthy), `elif coords_json:` requires a non-empty string, and
`else:` raises `ValueError("Не переданы координаты")`. -/
def selectCoords (req : Request) : Except PyExc (List (ℚ × ℚ)) :=
  match req.excel_file with
  | some ef => parse_coords_excel ef
  | none =>
    match req.coords_json with
    | some jf =>
      if jf.raw = "" then .error (.valueError "Не переданы координаты")
      else parse_coords_json jf.decoded
    | none => .error (.valueError "Не переданы координаты")

/-- The `if pdf_file:` block: skipped entirely (empty list) when no PDF
was uploaded. -/
def pdfStep (req : Request) : Except PyExc (List Nat) :=
  match req.pdf_file with
  | none => .ok []
  | some pf => pdf_to_images pf.bytes pf.openResult

/-- The `create_plot(coords)` call (`zip(*[])` raises `ValueError`). -/
def plotStep (coords : List (ℚ × ℚ)) : Except PyExc Plot :=
  match create_plot coords with
  | some p => .ok p
  | none => .error (.valueError "not enough values to unpack (expected 2, got 0)")

/-- Body of `generate_doc`'s `try`: coordinate-source selection, optional
PDF rasterization, chart, then docx assembly.  `assemblyExc` is the
behaviour of the docx library during assembly/save: `some msg` models it
raising a (non-`ValueError`) exception with that diagnostic. -/
def generate_body (req : Request) (assemblyExc : Option String) : Except PyExc Response := do
  let coords ← selectCoords req
  let pdfImages ← pdfStep req
  let plot ← plotStep coords
  match assemblyExc with
  | some msg => throw (.otherExc msg)
  | none => pure (mkResponse req.description plot pdfImages)

/-- `generate_doc` of `app.py`: the body under its two `except` clauses.
`except ValueError` → `HTTPException(400, {"error": str(exc)})`;
`except Exception` → `HTTPException(500, {"error": "Внутренняя ошибка
сервера: ..."})`.  An error result is the pair (status code, the single
human-readable message of the error body). -/
def generate_doc (req : Request) (assemblyExc : Option String) : Except (Nat × String) Response :=
  match generate_body req assemblyExc with
  | .ok resp => .ok resp
  | .error (.valueError msg) => .error (400, msg)
  | .error (.otherExc msg) => .error (500, "Внутренняя ошибка сервера: " ++ msg)

/-! ## Helper lemmas -/

theorem coercePair_eq_none (v : JVal) (h : isPairShape v = false) : coercePair v = none := by
  cases v with
  | jarr elems =>
    match elems with
    | [] => rfl
    | [_] => rfl
    | [_, _] => simp [isPairShape] at h
    | _ :: _ :: _ :: _ => rfl
  | jnull => rfl
  | jbool _ => rfl
  | jnum _ => rfl
  | jstr _ => rfl
  | jobj _ => rfl

theorem coercePair_isSome_elim (v : JVal) (h : (coercePair v).isSome = true) :
    ∃ a b x y, v = .jarr [a, b] ∧ pyFloat a = some x ∧ pyFloat b = some y ∧
      coercePair v = some (x, y) := by
  match v with
  | .jarr [a, b] =>
    refine ⟨a, b, ?_⟩
    cases hx : pyFloat a with
    | none => simp [coercePair, hx] at h
    | some x =>
      cases hy : pyFloat b with
      | none => simp [coercePair, hx, hy] at h
      | some y => exact ⟨x, y, rfl, rfl, rfl, by simp [coercePair, hx, hy]⟩
  | .jarr [] => simp [coercePair] at h
  | .jarr [_] => simp [coercePair] at h
  | .jarr (_ :: _ :: _ :: _) => simp [coercePair] at h
  | .jnull => simp [coercePair] at h
  | .jbool _ => simp [coercePair] at h
  | .jnum _ => simp [coercePair] at h
  | .jstr _ => simp [coercePair] at h
  | .jobj _ => simp [coercePair] at h

/-- When every 2-element-list element of the payload has coercible
components, the loop succeeds and collects exactly the valid pairs, in
order. -/
theorem collectCoords_ok (data : List JVal)
    (h : ∀ v ∈ data, isPairShape v = true → (coercePair v).isSome = true) :
    collectCoords data = .ok (data.filterMap coercePair) := by
  induction data with
  | nil => rfl
  | cons v rest ih =>
    have hrest := ih fun w hw => h w (List.mem_cons_of_mem v hw)
    by_cases hv : isPairShape v = true
    · obtain ⟨a, b, x, y, hva, hx, hy, hcp⟩ :=
        coercePair_isSome_elim v (h v (List.mem_cons_self v rest) hv)
      subst hva
      simp [collectCoords, hx, hy, hrest, List.filterMap_cons, hcp]
    · have hv' : isPairShape v = false := by simpa using hv
      have hnone := coercePair_eq_none v hv'
      have hskip : collectCoords (v :: rest) = collectCoords rest := by
        cases v with
        | jarr elems =>
          match elems with
          | [] => rfl
          | [_] => rfl
          | [_, _] => simp [isPairShape] at hv'
          | _ :: _ :: _ :: _ => rfl
        | jnull => rfl
        | jbool _ => rfl
        | jnum _ => rfl
        | jstr _ => rfl
        | jobj _ => rfl
      rw [hskip, hrest, List.filterMap_cons, hnone]

/-- Conversely, the loop only succeeds when every 2-element-list element
coerces: one bad pair anywhere aborts the whole payload. -/
theorem collectCoords_isOk_iff (data : List JVal) :
    (collectCoords data).isOk = true ↔
      ∀ v ∈ data, isPairShape v = true → (coercePair v).isSome = true := by
  constructor
  · intro hok
    induction data with
    | nil => intro v hv; simp at hv
    | cons v rest ih =>
      intro w hw hshape
      have hstep : ∀ a b x y, v = .jarr [a, b] → pyFloat a = some x → pyFloat b = some y →
          (collectCoords rest).isOk = true := by
        intro a b x y hva hx hy
        subst hva
        cases hr : collectCoords rest with
        | ok tail => rfl
        | error e => rw [show collectCoords (JVal.jarr [a, b] :: rest) =
            .error e by simp [collectCoords, hx, hy, hr]] at hok; simp [Except.isOk, Except.toBool] at hok
      rcases List.mem_cons.mp hw with hweq | hwrest
      · subst hweq
        obtain ⟨a, b, hva⟩ : ∃ a b, w = .jarr [a, b] := by
          cases w with
          | jarr elems =>
            match elems with
            | [a, b] => exact ⟨a, b, rfl⟩
            | [] => simp [isPairShape] at hshape
            | [_] => simp [isPairShape] at hshape
            | _ :: _ :: _ :: _ => simp [isPairShape] at hshape
          | jnull => simp [isPairShape] at hshape
          | jbool _ => simp [isPairShape] at hshape
          | jnum _ => simp [isPairShape] at hshape
          | jstr _ => simp [isPairShape] at hshape
          | jobj _ => simp [isPairShape] at hshape
        subst hva
        cases hx : pyFloat a with
        | none => rw [show collectCoords (JVal.jarr [a, b] :: rest) = .error floatFailMsg by
            simp [collectCoords, hx]] at hok; simp [Except.isOk, Except.toBool] at hok
        | some x =>
          cases hy : pyFloat b with
          | none => rw [show collectCoords (JVal.jarr [a, b] :: rest) = .error floatFailMsg by
              simp [collectCoords, hx, hy]] at hok; simp [Except.isOk, Except.toBool] at hok
          | some y => simp [coercePair, hx, hy]
      · -- w in the tail: the loop reached the tail, which therefore succeeded
        have htail : (collectCoords rest).isOk = true := by
          cases hv : isPairShape v with
          | false =>
            have hskip : collectCoords (v :: rest) = collectCoords rest := by
              cases v with
              | jarr elems =>
                match elems with
                | [] => rfl
                | [_] => rfl
                | [_, _] => simp [isPairShape] at hv
                | _ :: _ :: _ :: _ => rfl
              | jnull => rfl
              | jbool _ => rfl
              | jnum _ => rfl
              | jstr _ => rfl
              | jobj _ => rfl
            rwa [hskip] at hok
          | true =>
            obtain ⟨a, b, hva⟩ : ∃ a b, v = .jarr [a, b] := by
              cases v with
              | jarr elems =>
                match elems with
                | [a, b] => exact ⟨a, b, rfl⟩
                | [] => simp [isPairShape] at hv
                | [_] => simp [isPairShape] at hv
                | _ :: _ :: _ :: _ => simp [isPairShape] at hv
              | jnull => simp [isPairShape] at hv
              | jbool _ => simp [isPairShape] at hv
              | jnum _ => simp [isPairShape] at hv
              | jstr _ => simp [isPairShape] at hv
              | jobj _ => simp [isPairShape] at hv
            subst hva
            cases hx : pyFloat a with
            | none => rw [show collectCoords (JVal.jarr [a, b] :: rest) = .error floatFailMsg by
                simp [collectCoords, hx]] at hok; simp [Except.isOk, Except.toBool] at hok
            | some x =>
              cases hy : pyFloat b with
              | none => rw [show collectCoords (JVal.jarr [a, b] :: rest) = .error floatFailMsg by
                  simp [collectCoords, hx, hy]] at hok; simp [Except.isOk, Except.toBool] at hok
              | some y => exact hstep a b x y rfl hx hy
        exact ih htail w hwrest hshape
  · intro h
    rw [collectCoords_ok data h]
    rfl

/-- Elements that are not 2-element lists are invisible to the loop. -/
theorem collectCoords_filter (data : List JVal) :
    collectCoords data = collectCoords (data.filter isPairShape) := by
  induction data with
  | nil => rfl
  | cons v rest ih =>
    cases hv : isPairShape v with
    | true =>
      obtain ⟨a, b, hva⟩ : ∃ a b, v = .jarr [a, b] := by
        cases v with
        | jarr elems =>
          match elems with
          | [a, b] => exact ⟨a, b, rfl⟩
          | [] => simp [isPairShape] at hv
          | [_] => simp [isPairShape] at hv
          | _ :: _ :: _ :: _ => simp [isPairShape] at hv
        | jnull => simp [isPairShape] at hv
        | jbool _ => simp [isPairShape] at hv
        | jnum _ => simp [isPairShape] at hv
        | jstr _ => simp [isPairShape] at hv
        | jobj _ => simp [isPairShape] at hv
      subst hva
      rw [List.filter_cons_of_pos hv]
      cases hx : pyFloat a with
      | none => simp [collectCoords, hx]
      | some x =>
        cases hy : pyFloat b with
        | none => simp [collectCoords, hx, hy]
        | some y => simp [collectCoords, hx, hy, ih]
    | false =>
      have hskip : collectCoords (v :: rest) = collectCoords rest := by
        cases v with
        | jarr elems =>
          match elems with
          | [] => rfl
          | [_] => rfl
          | [_, _] => simp [isPairShape] at hv
          | _ :: _ :: _ :: _ => rfl
        | jnull => rfl
        | jbool _ => rfl
        | jnum _ => rfl
        | jstr _ => rfl
        | jobj _ => rfl
      rw [hskip, List.filter_cons_of_neg (by simp [hv]), ih]

theorem parse_coords_json_ok_of (data : List JVal)
    (hall : ∀ v ∈ data, isPairShape v = true → (coercePair v).isSome = true)
    (hne : data.filterMap coercePair ≠ []) :
    parse_coords_json (some (.jarr data)) = .ok ((data.filterMap coercePair).take 10) := by
  simp only [parse_coords_json]
  rw [collectCoords_ok data hall]
  cases hfm : data.filterMap coercePair with
  | nil => exact absurd hfm hne
  | cons c cs => simp [wrapValueError]

theorem parse_coords_json_isOk_iff (data : List JVal) :
    (parse_coords_json (some (.jarr data))).isOk = true ↔
      (∃ v ∈ data, isPairShape v = true) ∧
        ∀ v ∈ data, isPairShape v = true → (coercePair v).isSome = true := by
  constructor
  · intro hok
    cases hco : collectCoords data with
    | error e =>
      rw [show parse_coords_json (some (.jarr data)) =
          .error (.valueError ("Некорректные координаты: " ++ e)) by
        simp [parse_coords_json, wrapValueError, hco]] at hok
      simp [Except.isOk, Except.toBool] at hok
    | ok coords =>
      have hall : ∀ v ∈ data, isPairShape v = true → (coercePair v).isSome = true :=
        (collectCoords_isOk_iff data).mp (by simp [hco, Except.isOk, Except.toBool])
      refine ⟨?_, hall⟩
      rcases hc : coords with _ | ⟨c, cs⟩
      · subst hc
        rw [show parse_coords_json (some (.jarr data)) =
            .error (.valueError ("Некорректные координаты: " ++ "Список координат пуст")) by
          simp [parse_coords_json, wrapValueError, hco]] at hok
        simp [Except.isOk, Except.toBool] at hok
      · subst hc
        have : data.filterMap coercePair = c :: cs := by
          have := collectCoords_ok data hall
          rw [hco] at this
          exact (Except.ok.injEq _ _).mp this.symm
        have hcmem : c ∈ data.filterMap coercePair := by rw [this]; exact List.mem_cons_self c cs
        obtain ⟨v, hv, hcv⟩ := List.mem_filterMap.mp hcmem
        refine ⟨v, hv, ?_⟩
        by_contra hshape
        have : coercePair v = none := coercePair_eq_none v (by simpa using hshape)
        rw [this] at hcv
        exact Option.noConfusion hcv
  · rintro ⟨⟨v, hv, hshape⟩, hall⟩
    have hne : data.filterMap coercePair ≠ [] := by
      intro hnil
      have := (List.filterMap_eq_nil_iff.mp hnil) v hv
      obtain ⟨a, b, x, y, _, _, _, hcp⟩ :=
        coercePair_isSome_elim v (hall v hv hshape)
      rw [hcp] at this
      exact Option.noConfusion this
    rw [parse_coords_json_ok_of data hall hne]
    rfl

/-! ## Claims about `parse_coords_json` -/

/-- C1 (amended).  For every payload that decodes to a JSON array in
which every 2-element-array element has both components float-coercible
and that contains at least one 2-element-array element, the extractor
returns exactly the first `min(valid_pair_count, 10)` valid pairs, in
their original relative order (hard truncation).  (The amendment: the
original claim also covered payloads containing a *non-coercible*
2-element array, but such an element makes the code reject the whole
payload — see the counterexample.) -/
theorem parse_coords_json_first_ten (data : List JVal)
    (hall : ∀ v ∈ data, isPairShape v = true → (coercePair v).isSome = true)
    (hex : ∃ v ∈ data, isPairShape v = true) :
    parse_coords_json (some (.jarr data)) = .ok ((data.filterMap coercePair).take 10) ∧
      ((data.filterMap coercePair).take 10).length =
        min (data.filterMap coercePair).length 10 := by
  obtain ⟨v, hv, hshape⟩ := hex
  have hne : data.filterMap coercePair ≠ [] := by
    intro hnil
    have := (List.filterMap_eq_nil_iff.mp hnil) v hv
    obtain ⟨a, b, x, y, _, _, _, hcp⟩ := coercePair_isSome_elim v (hall v hv hshape)
    rw [hcp] at this
    exact Option.noConfusion this
  exact ⟨parse_coords_json_ok_of data hall hne, by rw [List.length_take]; omega⟩

/-- Witness for C1's amended theorem on the concrete payload
`[[1, 2], 7, [3, 4]]` (one non-pair element skipped, two valid pairs). -/
theorem parse_coords_json_first_ten_w :
    parse_coords_json
        (some (.jarr [.jarr [.jnum 1, .jnum 2], .jnum 7, .jarr [.jnum 3, .jnum 4]])) =
      .ok (([JVal.jarr [.jnum 1, .jnum 2], .jnum 7,
          .jarr [.jnum 3, .jnum 4]].filterMap coercePair).take 10) ∧
      (([JVal.jarr [.jnum 1, .jnum 2], .jnum 7,
          .jarr [.jnum 3, .jnum 4]].filterMap coercePair).take 10).length =
        min ([JVal.jarr [.jnum 1, .jnum 2], .jnum 7,
          .jarr [.jnum 3, .jnum 4]].filterMap coercePair).length 10 :=
  parse_coords_json_first_ten _ (by decide)
    ⟨JVal.jarr [.jnum 1, .jnum 2], List.mem_cons_self _ _, rfl⟩

/-- C1 counterexample: the payload `[[1, 2], [null, null]]` decodes to an
array with exactly one valid 2-element pair, so the claim as stated
promises a result of length `min(1, 10) = 1`; the code instead rejects
the whole payload (`float(None)` raises and there is no per-element
`try`). -/
theorem parse_coords_json_first_ten_cex :
    ([JVal.jarr [.jnum 1, .jnum 2], .jarr [.jnull, .jnull]].filterMap coercePair)
        = [((1 : ℚ), (2 : ℚ))] ∧
      (parse_coords_json
        (some (.jarr [.jarr [.jnum 1, .jnum 2], .jarr [.jnull, .jnull]]))).isOk = false := by
  decide

/-- C2 (amended).  Elements that are not 2-element arrays are silently
skipped (the result only depends on the 2-element-array elements), and
the payload is rejected exactly when it is not an array, when it contains
no 2-element array at all, or — the amendment — when some 2-element array
in it has a non-`float`-coercible component (the original claim said such
elements are skipped too; the counterexample shows they abort the whole
payload).  A non-decoding payload is likewise rejected. -/
theorem parse_coords_json_reject_characterization (data : List JVal) (v : JVal) :
    parse_coords_json (some (.jarr data)) =
        parse_coords_json (some (.jarr (data.filter isPairShape))) ∧
      ((parse_coords_json (some (.jarr data))).isOk = true ↔
        (∃ w ∈ data, isPairShape w = true) ∧
          ∀ w ∈ data, isPairShape w = true → (coercePair w).isSome = true) ∧
      (parse_coords_json none).isOk = false ∧
      ((∀ elems, v ≠ .jarr elems) → (parse_coords_json (some v)).isOk = false) := by
  refine ⟨?_, parse_coords_json_isOk_iff data, rfl, ?_⟩
  · simp only [parse_coords_json]
    rw [collectCoords_filter data]
  · intro hnotarr
    cases v with
    | jarr elems => exact absurd rfl (hnotarr elems)
    | jnull => rfl
    | jbool _ => rfl
    | jnum _ => rfl
    | jstr _ => rfl
    | jobj _ => rfl

/-- Witness for C2's amended theorem at the payload `[true, [1, 2]]` and
the non-array value `3`. -/
theorem parse_coords_json_reject_characterization_w :
    parse_coords_json (some (.jarr [.jbool true, .jarr [.jnum 1, .jnum 2]])) =
        parse_coords_json
          (some (.jarr ([JVal.jbool true, .jarr [.jnum 1, .jnum 2]].filter isPairShape))) ∧
      ((parse_coords_json (some (.jarr [.jbool true, .jarr [.jnum 1, .jnum 2]]))).isOk = true ↔
        (∃ w ∈ [JVal.jbool true, .jarr [.jnum 1, .jnum 2]], isPairShape w = true) ∧
          ∀ w ∈ [JVal.jbool true, .jarr [.jnum 1, .jnum 2]],
            isPairShape w = true → (coercePair w).isSome = true) ∧
      (parse_coords_json none).isOk = false ∧
      ((∀ elems, JVal.jnum 3 ≠ .jarr elems) →
        (parse_coords_json (some (.jnum 3))).isOk = false) :=
  parse_coords_json_reject_characterization _ _

/-- C2 counterexample: the payload `[[1, 2], ["x", "y"]]` decodes to an
array; after dropping the malformed pair one valid pair remains, so the
claim as stated promises success — but the code rejects the whole payload
(`float("x")` raises inside the loop). -/
theorem parse_coords_json_reject_cex :
    ([JVal.jarr [.jnum 1, .jnum 2], .jarr [.jstr "x", .jstr "y"]].filterMap coercePair)
        = [((1 : ℚ), (2 : ℚ))] ∧
      (parse_coords_json
        (some (.jarr [.jarr [.jnum 1, .jnum 2], .jarr [.jstr "x", .jstr "y"]]))).isOk
        = false := by
  decide

/-- C10 (confirmed).  The extractor accepts any 2-element array whose
components are `float()`-coercible, not only JSON numbers: the numeric
string `"3.5"` and the boolean `true` are converted, so the non-numeric
payload `[["3.5", true]]` succeeds with the coordinate `(3.5, 1.0)`. -/
theorem parse_coords_json_coercible :
    parse_coords_json (some (.jarr [.jarr [.jstr "3.5", .jbool true]])) =
        .ok [((7 : ℚ) / 2, (1 : ℚ))] ∧
      pyFloat (.jstr "3.5") = some ((7 : ℚ) / 2) ∧
      pyFloat (.jbool true) = some 1 := by
  have h : parseFloatLit "3.5" = some ((1 : ℚ) * ((3 : ℕ) + ((5 : ℕ) : ℚ) / pow10 1)) := rfl
  have hval : ((1 : ℚ) * ((3 : ℕ) + ((5 : ℕ) : ℚ) / pow10 1)) = (7 : ℚ) / 2 := by
    norm_num [pow10]
  refine ⟨?_, ?_, rfl⟩
  · simp only [parse_coords_json, collectCoords, pyFloat, wrapValueError, h, hval]
    norm_num
  · simp only [pyFloat, h, hval]

/-! ## Helper lemmas and claims about `parse_coords_excel` -/

/-- A data row the loop accepts: at least two cells, both non-`None` and
`float`-coercible. -/
def rowValid : List JVal → Bool
  | x :: y :: _ => !x.isNull && !y.isNull && (pyFloat x).isSome && (pyFloat y).isSome
  | _ => false

/-- The coordinate value a row contributes. -/
def rowCoord : List JVal → Option (ℚ × ℚ)
  | x :: y :: _ =>
    match pyFloat x, pyFloat y with
    | some a, some b => some (a, b)
    | _, _ => none
  | _ => none

/-- A data row the loop tolerates and skips: at least two cells, with a
`None` among the first two. -/
def rowNullSkip : List JVal → Bool
  | x :: y :: _ => x.isNull || y.isNull
  | _ => false

theorem rowValid_elim (r : List JVal) (h : rowValid r = true) :
    ∃ x y t a b, r = x :: y :: t ∧ x.isNull = false ∧ y.isNull = false ∧
      pyFloat x = some a ∧ pyFloat y = some b ∧ rowCoord r = some (a, b) := by
  match r with
  | [] => simp [rowValid] at h
  | [_] => simp [rowValid] at h
  | x :: y :: t =>
    simp only [rowValid, Bool.and_eq_true, Bool.not_eq_true'] at h
    obtain ⟨⟨⟨hx, hy⟩, hfx⟩, hfy⟩ := h
    obtain ⟨a, ha⟩ := Option.isSome_iff_exists.mp hfx
    obtain ⟨b, hb⟩ := Option.isSome_iff_exists.mp hfy
    exact ⟨x, y, t, a, b, rfl, hx, hy, ha, hb, by simp [rowCoord, ha, hb]⟩

/-- One loop step on a row accepted as valid. -/
theorem excelLoop_cons_valid (x y : JVal) (t : List JVal) (rest : List (List JVal))
    (acc : List (ℚ × ℚ)) (a b : ℚ) (hx : x.isNull = false) (hy : y.isNull = false)
    (hfx : pyFloat x = some a) (hfy : pyFloat y = some b) :
    excelLoop ((x :: y :: t) :: rest) acc =
      if (acc ++ [(a, b)]).length ≥ 10 then .ok (acc ++ [(a, b)])
      else excelLoop rest (acc ++ [(a, b)]) := by
  simp [excelLoop, hx, hy, hfx, hfy]

/-- One loop step on a row skipped because of a `None` cell. -/
theorem excelLoop_cons_skip (x y : JVal) (t : List JVal) (rest : List (List JVal))
    (acc : List (ℚ × ℚ)) (hnull : (!x.isNull && !y.isNull) = false)
    (hacc : acc.length < 10) :
    excelLoop ((x :: y :: t) :: rest) acc = excelLoop rest acc := by
  simp only [excelLoop, hnull, Bool.false_eq_true, if_false]
  rw [if_neg (by omega)]

/-- Rows with a `None` cell are skipped without effect. -/
theorem excelLoop_skip (rows : List (List JVal)) (acc : List (ℚ × ℚ))
    (hrows : ∀ r ∈ rows, rowNullSkip r = true) (hacc : acc.length < 10) :
    excelLoop rows acc = .ok acc := by
  induction rows with
  | nil => rfl
  | cons r rest ih =>
    have hr := hrows r (List.mem_cons_self r rest)
    obtain ⟨x, y, t, hrshape⟩ : ∃ x y t, r = x :: y :: t := by
      match r with
      | [] => simp [rowNullSkip] at hr
      | [_] => simp [rowNullSkip] at hr
      | x :: y :: t => exact ⟨x, y, t, rfl⟩
    subst hrshape
    have hnull : (!x.isNull && !y.isNull) = false := by
      simp only [rowNullSkip, Bool.or_eq_true] at hr
      rcases hr with hr | hr <;> simp [hr]
    rw [excelLoop_cons_skip x y t rest acc hnull hacc]
    exact ih fun w hw => hrows w (List.mem_cons_of_mem _ hw)

/-- Once the tenth coordinate is appended the loop breaks: rows after the
tenth valid row are never read (`rest` is arbitrary). -/
theorem excelLoop_break (valid : List (List JVal)) (rest : List (List JVal))
    (acc : List (ℚ × ℚ)) (hvalid : ∀ r ∈ valid, rowValid r = true)
    (hlen : acc.length + valid.length = 10) (hne : 1 ≤ valid.length) :
    excelLoop (valid ++ rest) acc = .ok (acc ++ valid.filterMap rowCoord) := by
  induction valid generalizing acc with
  | nil => simp at hne
  | cons r valid' ih =>
    obtain ⟨x, y, t, a, b, hrshape, hx, hy, hfx, hfy, hrc⟩ :=
      rowValid_elim r (hvalid r (List.mem_cons_self r valid'))
    subst hrshape
    simp only [List.length_cons] at hlen
    rw [List.cons_append, excelLoop_cons_valid x y t (valid' ++ rest) acc a b hx hy hfx hfy]
    cases valid' with
    | nil =>
      rw [if_pos (by
        simp only [List.length_append, List.length_cons, List.length_nil] at hlen ⊢
        omega)]
      simp [List.filterMap_cons, hrc]
    | cons v valid'' =>
      rw [if_neg (by
        simp only [List.length_append, List.length_cons, List.length_nil] at hlen ⊢
        omega)]
      rw [ih (acc ++ [(a, b)]) (fun w hw => hvalid w (List.mem_cons_of_mem _ hw))
        (by simp only [List.length_append, List.length_cons, List.length_nil] at hlen ⊢; omega)
        (by simp)]
      simp [List.filterMap_cons, hrc]

/-- When fewer than ten valid rows precede the skippable tail, the loop
collects them all and runs through the tail without effect. -/
theorem excelLoop_cont (valid : List (List JVal)) (rest : List (List JVal))
    (acc : List (ℚ × ℚ)) (hvalid : ∀ r ∈ valid, rowValid r = true)
    (hrest : ∀ r ∈ rest, rowNullSkip r = true)
    (hlen : acc.length + valid.length < 10) :
    excelLoop (valid ++ rest) acc = .ok (acc ++ valid.filterMap rowCoord) := by
  induction valid generalizing acc with
  | nil => simpa using excelLoop_skip rest acc hrest (by simpa using hlen)
  | cons r valid' ih =>
    obtain ⟨x, y, t, a, b, hrshape, hx, hy, hfx, hfy, hrc⟩ :=
      rowValid_elim r (hvalid r (List.mem_cons_self r valid'))
    subst hrshape
    simp only [List.length_cons] at hlen
    rw [List.cons_append, excelLoop_cons_valid x y t (valid' ++ rest) acc a b hx hy hfx hfy]
    rw [if_neg (by
      simp only [List.length_append, List.length_cons, List.length_nil] at hlen ⊢
      omega)]
    rw [ih (acc ++ [(a, b)]) (fun w hw => hvalid w (List.mem_cons_of_mem _ hw))
      (by simp only [List.length_append, List.length_cons, List.length_nil] at hlen ⊢; omega)]
    simp [List.filterMap_cons, hrc]

/-- On all-valid rows `rowCoord` drops nothing. -/
theorem filterMap_rowCoord_length (l : List (List JVal))
    (h : ∀ r ∈ l, rowValid r = true) :
    (l.filterMap rowCoord).length = l.length := by
  induction l with
  | nil => rfl
  | cons r t ih =>
    obtain ⟨x, y, u, a, b, hrshape, _, _, _, _, hrc⟩ :=
      rowValid_elim r (h r (List.mem_cons_self r t))
    rw [List.filterMap_cons, hrc]
    simp [ih fun w hw => h w (List.mem_cons_of_mem r hw)]

/-- On all-valid rows, truncating the rows and truncating the coordinates
agree. -/
theorem filterMap_rowCoord_take (l : List (List JVal)) (n : Nat)
    (h : ∀ r ∈ l, rowValid r = true) :
    (l.take n).filterMap rowCoord = (l.filterMap rowCoord).take n := by
  induction l generalizing n with
  | nil => simp
  | cons r t ih =>
    cases n with
    | zero => simp
    | succ m =>
      obtain ⟨x, y, u, a, b, hrshape, _, _, _, _, hrc⟩ :=
        rowValid_elim r (h r (List.mem_cons_self r t))
      rw [List.take_succ_cons, List.filterMap_cons, List.filterMap_cons, hrc]
      simp [List.take_succ_cons, ih m fun w hw => h w (List.mem_cons_of_mem r hw)]

/-- C3 (confirmed).  Reading starts at row 2 (the header row is skipped);
(a) with `N ≥ 1` valid data rows followed only by tolerated (null-celled)
rows, the extractor returns exactly `min(N, 10)` coordinates, the sheet's
own row values in row order; (b) with ten valid rows first, the result is
those ten regardless of what follows — rows beyond the tenth valid row
are never read; (c) zero valid rows fail with the coordinate-input error;
(d) an unreadable file fails likewise. -/
theorem parse_coords_excel_spec (hdr : List JVal) (valid rest rows : List (List JVal))
    (msg : String) :
    ((∀ r ∈ valid, rowValid r = true) → (∀ r ∈ rest, rowNullSkip r = true) →
      1 ≤ valid.length →
      parse_coords_excel (.ok (hdr :: (valid ++ rest))) =
          .ok ((valid.filterMap rowCoord).take 10) ∧
        ((valid.filterMap rowCoord).take 10).length = min valid.length 10) ∧
    ((∀ r ∈ valid, rowValid r = true) → valid.length = 10 →
      parse_coords_excel (.ok (hdr :: (valid ++ rest))) = .ok (valid.filterMap rowCoord)) ∧
    ((∀ r ∈ rows, rowNullSkip r = true) →
      (parse_coords_excel (.ok (hdr :: rows))).isOk = false) ∧
    (parse_coords_excel (.loadError msg)).isOk = false := by
  refine ⟨?_, ?_, ?_, rfl⟩
  · intro hvalid hrest hone
    have hlenfm := filterMap_rowCoord_length valid hvalid
    have hloop : excelLoop (valid ++ rest) [] = .ok ((valid.filterMap rowCoord).take 10) := by
      by_cases hten : valid.length < 10
      · rw [excelLoop_cont valid rest [] hvalid hrest (by simpa using hten)]
        rw [List.take_of_length_le (by omega)]
        rfl
      · have hsplit : valid ++ rest = valid.take 10 ++ (valid.drop 10 ++ rest) := by
          rw [← List.append_assoc, List.take_append_drop]
        rw [hsplit,
          excelLoop_break (valid.take 10) (valid.drop 10 ++ rest) []
            (fun w hw => hvalid w (List.take_subset 10 valid hw))
            (by simp; omega) (by simp; omega),
          filterMap_rowCoord_take valid 10 hvalid]
        rfl
    have hne2 : (valid.filterMap rowCoord).take 10 ≠ [] := by
      have : 0 < ((valid.filterMap rowCoord).take 10).length := by
        rw [List.length_take]; omega
      exact List.ne_nil_of_length_pos this
    constructor
    · simp only [parse_coords_excel, List.drop_one, List.tail_cons]
      rw [hloop]
      cases hl : (valid.filterMap rowCoord).take 10 with
      | nil => exact absurd hl hne2
      | cons c cs => simp [wrapValueError]
    · rw [List.length_take]; omega
  · intro hvalid hten
    have hloop := excelLoop_break valid rest [] hvalid
      (by simp only [List.length_nil]; omega) (by omega)
    have hne2 : valid.filterMap rowCoord ≠ [] := by
      have : 0 < (valid.filterMap rowCoord).length := by
        rw [filterMap_rowCoord_length valid hvalid]; omega
      exact List.ne_nil_of_length_pos this
    simp only [parse_coords_excel, List.drop_one, List.tail_cons]
    rw [hloop]
    cases hl : valid.filterMap rowCoord with
    | nil => exact absurd hl hne2
    | cons c cs => simp [wrapValueError]
  · intro hrows
    have hloop := excelLoop_skip rows [] hrows (by simp)
    simp only [parse_coords_excel, List.drop_one, List.tail_cons]
    rw [hloop]
    rfl

/-- Witness for C3 on a concrete sheet: header row, two valid rows, one
null-skipped row, plus a sheet with only a null row and an unreadable
file. -/
theorem parse_coords_excel_spec_w :
    (parse_coords_excel
          (.ok [[.jstr "x", .jstr "y"], [.jnum 1, .jnum 2], [.jnum 3, .jnum 4],
            [.jnull, .jnum 9]]) =
        .ok (([[JVal.jnum 1, .jnum 2], [.jnum 3, .jnum 4]].filterMap rowCoord).take 10) ∧
      (([[JVal.jnum 1, .jnum 2], [.jnum 3, .jnum 4]].filterMap rowCoord).take 10).length =
        min ([[JVal.jnum 1, .jnum 2], [.jnum 3, .jnum 4]] : List (List JVal)).length 10) ∧
    (parse_coords_excel (.ok [[.jstr "x", .jstr "y"], [.jnull, .jnum 9]])).isOk = false ∧
    (parse_coords_excel (.loadError "File is not a zip file")).isOk = false := by
  have h := parse_coords_excel_spec [.jstr "x", .jstr "y"]
    [[.jnum 1, .jnum 2], [.jnum 3, .jnum 4]] [[.jnull, .jnum 9]] [[.jnull, .jnum 9]]
    "File is not a zip file"
  exact ⟨h.1 (by decide) (by decide) (by decide), h.2.2.1 (by decide), h.2.2.2⟩

/-! ## Helper lemmas and claims about `create_plot` -/

theorem roundHalfEven_intCast (n : ℤ) : roundHalfEven (n : ℚ) = n := by
  simp [roundHalfEven]

theorem fmt3_natCast (n : ℕ) :
    fmt3 (n : ℚ) =
      "" ++ toString (n * 1000 / 1000) ++ "." ++ pad3 (toString (n * 1000 % 1000)) := by
  have h1 : ((n : ℚ)) * 1000 = ((n * 1000 : ℕ) : ℚ) := by push_cast; ring
  have h2 : |((n : ℚ))| = (n : ℚ) := abs_of_nonneg (Nat.cast_nonneg n)
  have h3 : ¬ ((n : ℚ) < 0) := not_lt.mpr (Nat.cast_nonneg n)
  have h4 : roundHalfEven ((n : ℚ) * 1000) = ((n * 1000 : ℕ) : ℤ) := by
    rw [h1]; exact_mod_cast roundHalfEven_intCast ((n * 1000 : ℕ) : ℤ)
  simp only [fmt3, h2, h4, if_neg h3, Int.toNat_natCast]

theorem fmt3_two : fmt3 (2 : ℚ) = "2.000" := by
  have h := fmt3_natCast 2
  norm_num at h
  rw [h]; decide

theorem fmt3_zero : fmt3 (0 : ℚ) = "0.000" := by
  have h := fmt3_natCast 0
  norm_num at h
  rw [h]; decide

theorem polyfit1_example : polyfit1 [((0 : ℚ), (0 : ℚ)), (2, 4)] = (2, 0) := by
  norm_num [polyfit1]

theorem sortByX_example : sortByX [((0 : ℚ), (0 : ℚ)), (2, 4)] = [(0, 0), (2, 4)] := by
  decide

/-- Full evaluation of `create_plot` on `[(0,0),(2,4)]`. -/
theorem create_plot_example :
    create_plot [((0 : ℚ), (0 : ℚ)), (2, 4)] =
      some { scatter := [(0, 0), (2, 4)], line := [(0, 0), (2, 4)],
             trend := some ((2, 0), "Тренд: y=2.000x+0.000"),
             xlabel := "X", ylabel := "Y", grid := true } := by
  simp only [create_plot, sortByX_example, polyfit1_example, fmt3_two, fmt3_zero]
  norm_num
  decide

/-- C4 (amended).  For a sequence of length ≥ 2 the renderer computes the
degree-1 least-squares fit over the original (x, y) pairs and annotates
the plot with the fit equation formatted to 3 decimal places; on
`[(0,0),(2,4)]` the fit is exactly slope 2.0, intercept 0.0 — but the
rendered text is `Тренд: y=2.000x+0.000`: the source labels the
annotation with the Russian word `Тренд`, not the English `Trend` of the
claim (see the counterexample). -/
theorem create_plot_trend_fit (coords : List (ℚ × ℚ)) (h : 2 ≤ coords.length) :
    ((create_plot coords).bind fun p => p.trend) =
        some (polyfit1 coords,
          "Тренд: y=" ++ fmt3 (polyfit1 coords).1 ++ "x+" ++ fmt3 (polyfit1 coords).2) ∧
      create_plot [((0 : ℚ), (0 : ℚ)), (2, 4)] =
        some { scatter := [(0, 0), (2, 4)], line := [(0, 0), (2, 4)],
               trend := some ((2, 0), "Тренд: y=2.000x+0.000"),
               xlabel := "X", ylabel := "Y", grid := true } := by
  refine ⟨?_, create_plot_example⟩
  match coords, h with
  | c :: cs, h =>
    simp only [create_plot, List.length_cons] at h ⊢
    rw [if_pos (by simpa using h)]
    simp

/-- Witness for C4's amended theorem at `[(0,0),(2,4)]`. -/
theorem create_plot_trend_fit_w :
    ((create_plot [((0 : ℚ), (0 : ℚ)), (2, 4)]).bind fun p => p.trend) =
        some (polyfit1 [((0 : ℚ), (0 : ℚ)), (2, 4)],
          "Тренд: y=" ++ fmt3 (polyfit1 [((0 : ℚ), (0 : ℚ)), (2, 4)]).1 ++ "x+" ++
            fmt3 (polyfit1 [((0 : ℚ), (0 : ℚ)), (2, 4)]).2) ∧
      create_plot [((0 : ℚ), (0 : ℚ)), (2, 4)] =
        some { scatter := [(0, 0), (2, 4)], line := [(0, 0), (2, 4)],
               trend := some ((2, 0), "Тренд: y=2.000x+0.000"),
               xlabel := "X", ylabel := "Y", grid := true } :=
  create_plot_trend_fit [((0 : ℚ), (0 : ℚ)), (2, 4)] (by decide)

/-- C4 counterexample: on `[(0,0),(2,4)]` the rendered annotation is not
the claimed `Trend: y=2.000x+0.000` — the source writes the label in
Russian, `Тренд: y=2.000x+0.000`. -/
theorem create_plot_trend_label_cex :
    ((create_plot [((0 : ℚ), (0 : ℚ)), (2, 4)]).bind fun p => p.trend) ≠
        some ((2, 0), "Trend: y=2.000x+0.000") ∧
      ((create_plot [((0 : ℚ), (0 : ℚ)), (2, 4)]).bind fun p => p.trend) =
        some ((2, 0), "Тренд: y=2.000x+0.000") := by
  rw [create_plot_example]
  exact ⟨by simp, by simp⟩

/-- C9 (confirmed).  On the single coordinate `[(5,5)]` the renderer
draws no trend line and no fit text (`trend = none`) and still succeeds,
producing a chart. -/
theorem create_plot_single_point :
    create_plot [((5 : ℚ), (5 : ℚ))] =
      some { scatter := [(5, 5)], line := [(5, 5)], trend := none,
             xlabel := "X", ylabel := "Y", grid := true } := by
  decide

/-! ## Helper lemmas and claims about `pdf_to_images` -/

/-- A failing page anywhere makes the whole page loop fail. -/
theorem renderPages_error (pages : List PageOutcome)
    (h : ∃ p ∈ pages, p.isOkPage = false) (n : Nat) :
    (renderPages n pages).isOk = false := by
  induction pages generalizing n with
  | nil => obtain ⟨p, hp, _⟩ := h; simp at hp
  | cons p rest ih =>
    cases p with
    | ok img =>
      have hrest : ∃ q ∈ rest, q.isOkPage = false := by
        obtain ⟨q, hq, hqf⟩ := h
        rcases List.mem_cons.mp hq with hqe | hqr
        · subst hqe; simp [PageOutcome.isOkPage] at hqf
        · exact ⟨q, hqr, hqf⟩
      have := ih hrest (n + 1)
      simp only [renderPages]
      cases hr : renderPages (n + 1) rest with
      | ok tail => rw [hr] at this; simp [Except.isOk, Except.toBool] at this
      | error e => rfl
    | memError => rfl
    | renderError msg => rfl

/-- A successful page loop renders every page, in order. -/
theorem renderPages_ok_elim (pages : List PageOutcome) (n : Nat) (imgs : List Nat)
    (h : renderPages n pages = .ok imgs) :
    imgs = pages.filterMap PageOutcome.image ∧ imgs.length = pages.length := by
  induction pages generalizing n imgs with
  | nil =>
    have : imgs = [] := by
      simpa [renderPages] using h.symm
    simp [this]
  | cons p rest ih =>
    cases p with
    | ok img =>
      simp only [renderPages] at h
      cases hr : renderPages (n + 1) rest with
      | error e => rw [hr] at h; exact Except.noConfusion h
      | ok tail =>
        rw [hr] at h
        obtain ⟨htail, hlen⟩ := ih (n + 1) tail hr
        have himgs : imgs = img :: tail := ((Except.ok.injEq _ _).mp h).symm
        subst himgs
        refine ⟨by simp [List.filterMap_cons, PageOutcome.image, htail], ?_⟩
        simp only [List.length_cons]
        omega
    | memError => exact Except.noConfusion h
    | renderError msg => exact Except.noConfusion h

/-- C5 (confirmed).  Whenever opening the document fails with a signal
whose lowered text carries the password/encryption indicator, the failure
is classified as the encrypted category and surfaces as the
password-protected error — never as any of the malformed-document
messages (which are pairwise distinct from it). -/
theorem pdf_to_images_encrypted (msg : String) (pdfBytes : List Nat)
    (hne : pdfBytes ≠ [])
    (hind : strContainsSub (pyLower msg) "encrypted".data = true ∨
      strContainsSub (pyLower msg) "password".data = true) :
    classifyOpen msg = .encrypted ∧
      pdf_to_images pdfBytes (.runtimeError msg) =
        .error (.valueError "Ошибка PDF: PDF защищён паролем") ∧
      (∀ d, openClassMsg (.other d) ≠ openClassMsg .encrypted) ∧
      openClassMsg .broken ≠ openClassMsg .encrypted ∧
      openClassMsg .xref ≠ openClassMsg .encrypted := by
  have hcls : classifyOpen msg = .encrypted := by
    unfold classifyOpen
    rcases hind with h | h <;> simp [h]
  refine ⟨hcls, ?_, ?_, by decide, by decide⟩
  · obtain ⟨b, bs, hbs⟩ := List.exists_cons_of_ne_nil hne
    subst hbs
    simp only [pdf_to_images, pdfBody, List.isEmpty_cons, hcls, openClassMsg]
    rfl
  · intro d heq
    have hlen := congrArg String.length heq
    rw [show openClassMsg (.other d) = "Невозможно открыть PDF: " ++ d from rfl,
      String.length_append] at hlen
    have h1 : ("Невозможно открыть PDF: ").length = 24 := rfl
    have h2 : (openClassMsg .encrypted).length = 19 := rfl
    omega

/-- Witness for C5 at a representative MuPDF open-failure signal. -/
theorem pdf_to_images_encrypted_w :
    classifyOpen "code=... this document is Encrypted" = .encrypted ∧
      pdf_to_images [137, 80, 68, 70] (.runtimeError "code=... this document is Encrypted") =
        .error (.valueError "Ошибка PDF: PDF защищён паролем") ∧
      (∀ d, openClassMsg (.other d) ≠ openClassMsg .encrypted) ∧
      openClassMsg .broken ≠ openClassMsg .encrypted ∧
      openClassMsg .xref ≠ openClassMsg .encrypted :=
  pdf_to_images_encrypted "code=... this document is Encrypted" [137, 80, 68, 70]
    (by decide) (Or.inl (by decide))

/-! ## Helper lemmas and claims about `generate_doc` -/

theorem wrapValueError_no_other (pre : String) (r : Except String α) (m : String) :
    wrapValueError pre r ≠ .error (.otherExc m) := by
  cases r <;> simp [wrapValueError]

theorem parse_coords_json_no_other (d : Option JVal) (m : String) :
    parse_coords_json d ≠ .error (.otherExc m) := by
  unfold parse_coords_json
  apply wrapValueError_no_other

theorem parse_coords_excel_no_other (f : ExcelFile) (m : String) :
    parse_coords_excel f ≠ .error (.otherExc m) := by
  unfold parse_coords_excel
  apply wrapValueError_no_other

theorem pdf_to_images_no_other (pdfBytes : List Nat) (o : OpenResult) (m : String) :
    pdf_to_images pdfBytes o ≠ .error (.otherExc m) := by
  unfold pdf_to_images
  cases pdfBody pdfBytes o with
  | ok imgs => simp
  | error e => cases e <;> simp

/-- Every failure of the coordinate-selection step is a `ValueError`. -/
theorem selectCoords_error_shape (req : Request) (e : PyExc)
    (h : selectCoords req = .error e) : ∃ m, e = .valueError m := by
  cases e with
  | valueError m => exact ⟨m, rfl⟩
  | otherExc m =>
    exfalso
    unfold selectCoords at h
    cases hef : req.excel_file with
    | some ef => rw [hef] at h; exact parse_coords_excel_no_other ef m h
    | none =>
      rw [hef] at h
      cases hcj : req.coords_json with
      | none => rw [hcj] at h; exact PyExc.noConfusion ((Except.error.injEq _ _).mp h)
      | some jf =>
        simp only [hcj] at h
        by_cases hraw : jf.raw = ""
        · rw [if_pos hraw] at h
          exact PyExc.noConfusion ((Except.error.injEq _ _).mp h)
        · rw [if_neg hraw] at h
          exact parse_coords_json_no_other jf.decoded m h

/-- Every failure of the PDF step is a `ValueError`. -/
theorem pdfStep_error_shape (req : Request) (e : PyExc)
    (h : pdfStep req = .error e) : ∃ m, e = .valueError m := by
  cases e with
  | valueError m => exact ⟨m, rfl⟩
  | otherExc m =>
    exfalso
    unfold pdfStep at h
    cases hpf : req.pdf_file with
    | none => rw [hpf] at h; exact Except.noConfusion h
    | some pf => rw [hpf] at h; exact pdf_to_images_no_other pf.bytes pf.openResult m h

theorem generate_body_select_error (req : Request) (exc : Option String) (e : PyExc)
    (h : selectCoords req = .error e) : generate_body req exc = .error e := by
  simp [generate_body, h, Bind.bind, Except.bind, Functor.map, Except.map, pure, Except.pure, throw, throwThe, MonadExceptOf.throw]

theorem generate_body_pdf_error (req : Request) (exc : Option String)
    (cs : List (ℚ × ℚ)) (e : PyExc) (hsel : selectCoords req = .ok cs)
    (h : pdfStep req = .error e) : generate_body req exc = .error e := by
  simp [generate_body, hsel, h, Bind.bind, Except.bind, Functor.map, Except.map, pure, Except.pure, throw, throwThe, MonadExceptOf.throw]

/-- C6 (confirmed).  Every failure maps to exactly one status: errors are
either 400 — exactly the `ValueError` class, which covers every
coordinate-selection failure and every document failure — or 500 for any
other exception, such as a report-assembly failure, with the internal
diagnostic appended to the single message field after the fixed
internal-error prefix. -/
theorem generate_doc_status_map (req : Request) (exc : Option String) :
    (∀ s m, generate_doc req exc = .error (s, m) → s = 400 ∨ s = 500) ∧
    (∀ m, generate_body req exc = .error (.valueError m) →
      generate_doc req exc = .error (400, m)) ∧
    (∀ m, generate_body req exc = .error (.otherExc m) →
      generate_doc req exc = .error (500, "Внутренняя ошибка сервера: " ++ m)) ∧
    (∀ e, selectCoords req = .error e →
      ∃ m, e = .valueError m ∧ generate_doc req exc = .error (400, m)) ∧
    (∀ cs e, selectCoords req = .ok cs → pdfStep req = .error e →
      ∃ m, e = .valueError m ∧ generate_doc req exc = .error (400, m)) ∧
    (∀ resp d, generate_body req none = .ok resp →
      generate_doc req (some d) = .error (500, "Внутренняя ошибка сервера: " ++ d)) := by
  refine ⟨?_, ?_, ?_, ?_, ?_, ?_⟩
  · intro s m h
    cases hb : generate_body req exc with
    | ok resp => simp [generate_doc, hb] at h
    | error pe =>
      cases pe with
      | valueError m' => simp [generate_doc, hb] at h; omega
      | otherExc m' => simp [generate_doc, hb] at h; omega
  · intro m h
    simp [generate_doc, h]
  · intro m h
    simp [generate_doc, h]
  · intro e h
    obtain ⟨m, hm⟩ := selectCoords_error_shape req e h
    subst hm
    exact ⟨m, rfl, by simp [generate_doc, generate_body_select_error req exc _ h]⟩
  · intro cs e hsel h
    obtain ⟨m, hm⟩ := pdfStep_error_shape req e h
    subst hm
    exact ⟨m, rfl, by simp [generate_doc, generate_body_pdf_error req exc cs _ hsel h]⟩
  · intro resp d h
    cases hsel : selectCoords req with
    | error e => rw [generate_body_select_error req none e hsel] at h; exact Except.noConfusion h
    | ok cs =>
      cases hp : pdfStep req with
      | error e =>
        rw [generate_body_pdf_error req none cs e hsel hp] at h
        exact Except.noConfusion h
      | ok imgs =>
        cases hpl : plotStep cs with
        | error e => simp [generate_body, hsel, hp, hpl, Bind.bind, Except.bind, Functor.map, Except.map, pure, Except.pure, throw, throwThe, MonadExceptOf.throw] at h
        | ok plot =>
          have hbody : generate_body req (some d) = .error (.otherExc d) := by
            simp [generate_body, hsel, hp, hpl, Bind.bind, Except.bind, Functor.map, Except.map, pure, Except.pure, throw, throwThe, MonadExceptOf.throw]
          simp [generate_doc, hbody]

/-- A request whose only coordinate source is an undecodable string. -/
def reqBadJson : Request where
  description := none
  coords_json := some { raw := "not json", decoded := none }
  excel_file := none
  pdf_file := none

/-- A request with one valid inline coordinate pair and nothing else. -/
def reqJsonOk : Request where
  description := some "d"
  coords_json := some { raw := "[[1, 2]]", decoded := some (.jarr [.jarr [.jnum 1, .jnum 2]]) }
  excel_file := none
  pdf_file := none

/-- The chart `reqJsonOk` produces. -/
def plotJsonOk : Plot where
  scatter := [(1, 2)]
  line := [(1, 2)]
  trend := none
  xlabel := "X"
  ylabel := "Y"
  grid := true

/-- Witness for C6: a malformed coordinate payload yields 400 with the
extractor's message; a docx failure on an otherwise successful request
yields 500 with the diagnostic appended. -/
theorem generate_doc_status_map_w :
    generate_doc reqBadJson none =
        .error (400, "Некорректные координаты: " ++ jsonDecodeFailMsg) ∧
      generate_doc reqJsonOk (some "docx save failed") =
        .error (500, "Внутренняя ошибка сервера: " ++ "docx save failed") := by
  constructor
  · exact (generate_doc_status_map reqBadJson none).2.1 _ rfl
  · exact (generate_doc_status_map reqJsonOk (some "docx save failed")).2.2.2.2.2
      (mkResponse (some "d") plotJsonOk []) "docx save failed" rfl

/-- C7 (confirmed).  When a spreadsheet is present the text payload is
completely ignored: the response is the same whatever `coords_json`
holds (so never a merge of both sources).  When neither source is
effectively present (no spreadsheet, and the text field absent or empty),
the request fails with the no-coordinates 400 error before any
processing: the same error results whatever the PDF upload and the
assembly behaviour are. -/
theorem generate_doc_precedence (req : Request) (exc : Option String)
    (j' : Option JsonField) (pf : Option PdfFile) (exc' : Option String) :
    (req.excel_file.isSome = true →
      generate_doc req exc = generate_doc { req with coords_json := j' } exc) ∧
    (req.excel_file = none → jsonFieldTruthy req.coords_json = false →
      generate_doc req exc = .error (400, "Не переданы координаты") ∧
        generate_doc { req with pdf_file := pf } exc' =
          .error (400, "Не переданы координаты")) := by
  obtain ⟨desc, cj, oef, opf⟩ := req
  constructor
  · intro hef
    cases oef with
    | none => simp at hef
    | some ef => rfl
  · intro hef htr
    subst hef
    cases cj with
    | none => exact ⟨rfl, rfl⟩
    | some jf =>
      have hraw : jf.raw = "" := by
        simpa [jsonFieldTruthy] using htr
      constructor
      · simp [generate_doc, generate_body, selectCoords, hraw, Bind.bind, Except.bind,
          pure, Except.pure, throw, throwThe, MonadExceptOf.throw]
      · simp [generate_doc, generate_body, selectCoords, hraw, Bind.bind, Except.bind,
          pure, Except.pure, throw, throwThe, MonadExceptOf.throw]

/-- The spreadsheet used by C7's witness. -/
def excelOneRow : ExcelFile :=
  .ok [[.jstr "x", .jstr "y"], [.jnum 1, .jnum 2]]

/-- A request carrying both a spreadsheet and a text payload. -/
def reqBoth : Request where
  description := none
  coords_json := some { raw := "[[9, 9]]", decoded := some (.jarr [.jarr [.jnum 9, .jnum 9]]) }
  excel_file := some excelOneRow
  pdf_file := none

/-- A request with an empty text payload and no spreadsheet. -/
def reqNeither : Request where
  description := none
  coords_json := some { raw := "", decoded := none }
  excel_file := none
  pdf_file := none

/-- Witness for C7: with both sources present the text payload can be
dropped without changing the response; with neither effectively present
the request fails with the no-coordinates error, also after adding a PDF
and an assembly fault. -/
theorem generate_doc_precedence_w :
    (generate_doc reqBoth none = generate_doc { reqBoth with coords_json := none } none) ∧
      (generate_doc reqNeither none = .error (400, "Не переданы координаты") ∧
        generate_doc { reqNeither with pdf_file := some { bytes := [1], openResult := .ok [.ok 5] } }
            (some "boom") =
          .error (400, "Не переданы координаты")) :=
  ⟨(generate_doc_precedence reqBoth none none none none).1 rfl,
    (generate_doc_precedence reqNeither none none
      (some { bytes := [1], openResult := .ok [.ok 5] }) (some "boom")).2 rfl rfl⟩

/-! Counting embedded page images in the assembled document. -/

def DocxItem.isPagePic : DocxItem → Bool
  | .picture (.page _) _ => true
  | _ => false

theorem pageItems_count (imgs : List Nat) (i : Nat) :
    (pageItems i imgs).countP DocxItem.isPagePic = imgs.length := by
  induction imgs generalizing i with
  | nil => rfl
  | cons img rest ih =>
    simp only [pageItems, List.countP_cons]
    rw [ih (i + 1)]
    simp [DocxItem.isPagePic]

theorem mkResponse_page_count (desc : Option String) (plot : Plot) (imgs : List Nat) :
    (mkResponse desc plot imgs).items.countP DocxItem.isPagePic = imgs.length := by
  simp only [mkResponse, List.countP_append]
  rw [pageItems_count imgs 1]
  simp [List.countP_cons, DocxItem.isPagePic]

theorem generate_doc_isOk_false_of_body_error (req : Request) (exc : Option String)
    (pe : PyExc) (h : generate_body req exc = .error pe) :
    (generate_doc req exc).isOk = false := by
  cases pe <;> simp [generate_doc, h, Except.isOk, Except.toBool]

theorem generate_doc_ok_elim (req : Request) (exc : Option String) (resp : Response)
    (h : generate_doc req exc = .ok resp) : generate_body req exc = .ok resp := by
  cases hb : generate_body req exc with
  | ok r =>
    rw [show generate_doc req exc = .ok r by simp [generate_doc, hb]] at h
    rw [(Except.ok.injEq _ _).mp h]
  | error pe => cases pe <;> simp [generate_doc, hb] at h

/-- A successful body run determines every stage. -/
theorem generate_body_ok_elim (req : Request) (exc : Option String) (resp : Response)
    (h : generate_body req exc = .ok resp) :
    ∃ cs imgs plot, selectCoords req = .ok cs ∧ pdfStep req = .ok imgs ∧
      plotStep cs = .ok plot ∧ exc = none ∧
      resp = mkResponse req.description plot imgs := by
  cases hsel : selectCoords req with
  | error e =>
    rw [generate_body_select_error req exc e hsel] at h
    exact Except.noConfusion h
  | ok cs =>
    cases hp : pdfStep req with
    | error e =>
      rw [generate_body_pdf_error req exc cs e hsel hp] at h
      exact Except.noConfusion h
    | ok imgs =>
      cases hpl : plotStep cs with
      | error e =>
        simp [generate_body, hsel, hp, hpl, Bind.bind, Except.bind] at h
      | ok plot =>
        cases exc with
        | some d =>
          simp [generate_body, hsel, hp, hpl, Bind.bind, Except.bind, throw, throwThe,
            MonadExceptOf.throw] at h
        | none =>
          have hb : generate_body req none = .ok (mkResponse req.description plot imgs) := by
            simp [generate_body, hsel, hp, hpl, Bind.bind, Except.bind, pure, Except.pure]
          rw [hb] at h
          exact ⟨cs, imgs, plot, rfl, rfl, hpl, rfl,
            ((Except.ok.injEq _ _).mp h).symm⟩

/-- A successful `pdf_to_images` run renders every page, in order. -/
theorem pdf_to_images_ok_elim (pdfBytes : List Nat) (pages : List PageOutcome)
    (imgs : List Nat) (h : pdf_to_images pdfBytes (.ok pages) = .ok imgs) :
    imgs.length = pages.length ∧ imgs = pages.filterMap PageOutcome.image := by
  by_cases hb : pdfBytes.isEmpty
  · simp [pdf_to_images, pdfBody, hb] at h
  · simp only [pdf_to_images, pdfBody, hb, Bool.false_eq_true, if_false] at h
    cases hr : renderPages 1 pages with
    | error e => rw [hr] at h; simp at h
    | ok imgs' =>
      rw [hr] at h
      simp only [Except.ok.injEq] at h
      subst h
      obtain ⟨himgs, hlen⟩ := renderPages_ok_elim pages 1 imgs' hr
      exact ⟨hlen, himgs⟩

/-- C8 (confirmed).  No partial result ever escapes: (a) a failing page
makes the whole rasterization fail; (b) a successful rasterization
contains every page, in order; (c) at the request level, a failing
rasterization means no response is produced at all; (d) a successful
response embeds exactly one image per source page. -/
theorem pipeline_no_partial_results (pdfBytes : List Nat) (pages : List PageOutcome)
    (req : Request) (exc : Option String) (pf : PdfFile) :
    ((∃ p ∈ pages, p.isOkPage = false) →
      (pdf_to_images pdfBytes (.ok pages)).isOk = false) ∧
    (∀ imgs, pdf_to_images pdfBytes (.ok pages) = .ok imgs →
      imgs.length = pages.length ∧ imgs = pages.filterMap PageOutcome.image) ∧
    (req.pdf_file = some pf → (pdf_to_images pf.bytes pf.openResult).isOk = false →
      (generate_doc req exc).isOk = false) ∧
    (∀ resp pages2, req.pdf_file = some pf → pf.openResult = .ok pages2 →
      generate_doc req exc = .ok resp →
      resp.items.countP DocxItem.isPagePic = pages2.length) := by
  refine ⟨?_, fun imgs h => pdf_to_images_ok_elim pdfBytes pages imgs h, ?_, ?_⟩
  · intro hbad
    by_cases hb : pdfBytes.isEmpty
    · simp [pdf_to_images, pdfBody, hb, Except.isOk, Except.toBool]
    · have := renderPages_error pages hbad 1
      simp only [pdf_to_images, pdfBody, hb, Bool.false_eq_true, if_false]
      cases hr : renderPages 1 pages with
      | ok imgs => rw [hr] at this; simp [Except.isOk, Except.toBool] at this
      | error e => rfl
  · intro hpf hfail
    have hpdf : pdfStep req = pdf_to_images pf.bytes pf.openResult := by
      simp [pdfStep, hpf]
    cases hsel : selectCoords req with
    | error e =>
      exact generate_doc_isOk_false_of_body_error req exc e
        (generate_body_select_error req exc e hsel)
    | ok cs =>
      cases hp : pdfStep req with
      | error e =>
        exact generate_doc_isOk_false_of_body_error req exc e
          (generate_body_pdf_error req exc cs e hsel hp)
      | ok imgs =>
        rw [hp] at hpdf
        rw [← hpdf] at hfail
        simp [Except.isOk, Except.toBool] at hfail
  · intro resp pages2 hpf hopen hgd
    obtain ⟨cs, imgs, plot, hsel, hp, hpl, hexc, hresp⟩ :=
      generate_body_ok_elim req exc resp (generate_doc_ok_elim req exc resp hgd)
    have hpdf : pdf_to_images pf.bytes (.ok pages2) = .ok imgs := by
      rw [← hopen]
      rw [show pdfStep req = pdf_to_images pf.bytes pf.openResult by simp [pdfStep, hpf]] at hp
      exact hp
    obtain ⟨hlen, _⟩ := pdf_to_images_ok_elim pf.bytes pages2 imgs hpdf
    rw [hresp, mkResponse_page_count]
    exact hlen

/-- A PDF whose second page exhausts memory. -/
def pfBad : PdfFile where
  bytes := [1]
  openResult := .ok [.ok 3, .memError]

/-- A PDF with two rendering pages. -/
def pfGood : PdfFile where
  bytes := [1]
  openResult := .ok [.ok 3, .ok 4]

/-- Valid inline coordinates plus the failing PDF. -/
def reqPdfBad : Request where
  description := none
  coords_json := some { raw := "[[1, 2]]", decoded := some (.jarr [.jarr [.jnum 1, .jnum 2]]) }
  excel_file := none
  pdf_file := some pfBad

/-- Valid inline coordinates plus the two-page PDF. -/
def reqPdfGood : Request where
  description := none
  coords_json := some { raw := "[[1, 2]]", decoded := some (.jarr [.jarr [.jnum 1, .jnum 2]]) }
  excel_file := none
  pdf_file := some pfGood

/-- Witness for C8: a failing page aborts rasterization and the request;
a clean two-page document yields both pages and a response embedding
exactly two page images. -/
theorem pipeline_no_partial_results_w :
    (pdf_to_images [1] (.ok [.ok 3, .memError])).isOk = false ∧
      (([3, 4] : List Nat).length = ([PageOutcome.ok 3, .ok 4] : List PageOutcome).length ∧
        ([3, 4] : List Nat) = [PageOutcome.ok 3, .ok 4].filterMap PageOutcome.image) ∧
      (generate_doc reqPdfBad none).isOk = false ∧
      (mkResponse none plotJsonOk [3, 4]).items.countP DocxItem.isPagePic =
        ([PageOutcome.ok 3, .ok 4] : List PageOutcome).length := by
  refine ⟨?_, ?_, ?_, ?_⟩
  · exact (pipeline_no_partial_results [1] [.ok 3, .memError] reqPdfBad none pfBad).1 (by decide)
  · exact (pipeline_no_partial_results [1] [.ok 3, .ok 4] reqPdfGood none pfGood).2.1 [3, 4] rfl
  · exact (pipeline_no_partial_results [1] [.ok 3, .memError] reqPdfBad none pfBad).2.2.1 rfl
      (by decide)
  · exact (pipeline_no_partial_results [1] [.ok 3, .ok 4] reqPdfGood none pfGood).2.2.2
      (mkResponse none plotJsonOk [3, 4]) [.ok 3, .ok 4] rfl rfl rfl

end DocGen
